import Mathlib

/-!
Verification development for the RequiredAI constraint-enforcing completion
gateway.  The Python sources under `RequiredAI/` are shallowly embedded as
executable Lean definitions; external effects (LLM provider calls, the regex
engine, the random shuffle, client-driven stop flags) are passed in as
explicit oracle parameters, so every definition is a pure function of its
inputs exactly mirroring the Python control flow.
-/

namespace RequiredAI

/-- A chat message (`{role, content, tags}`) as used throughout the code
(`ModelConfig.py`, `system.py`).  `tags` is the optional tag list attached by
providers; absent tags are the empty list (Python `message.get('tags', [])`). -/
structure Message where
  role : String
  content : String
  tags : List String
deriving Repr, DecidableEq

/-- Variant-specific extra fields of an evaluation-log entry, the
`extra_log_fields` argument of `RequirementResult.construct`
(`Requirement.py` lines 22-32).  Each constructor corresponds to one literal
dict appearing in `RequirementTypes.py`. -/
inductive LogExtra where
  /-- no extra fields (e.g. `ContainsRequirement`, passing `RegexRequirement`) -/
  | noExtra
  /-- `{"pattern_type": …, "pattern": …}` from `RegexRequirement.evaluate` -/
  | patternInfo (pattern_type : String) (pattern : String)
  /-- `{"error": …}` from the malformed-regex and written-exception branches -/
  | errorMsg (error : String)
  /-- `{"evaluation": …, "eval_result": …, "response": …}` from
  `WrittenRequirement.evaluate`; the grader response is kept as its content
  string -/
  | writtenEval (response : String) (eval_result : Bool)
deriving Repr, DecidableEq

/-- The `evaluation_log` dict built by `RequirementResult.construct`
(`Requirement.py` lines 23-32): requirement type tag, requirement name, the
pass flag, plus the variant-specific extra fields. -/
structure EvalLogEntry where
  requirement_type : String
  requirement_name : String
  passed : Bool
  extra : LogExtra
deriving Repr, DecidableEq

/-- `RequirementResult` (`Requirement.py` lines 14-32).  `passed_eval` is the
boolean an evaluation returns; `evaluation_log` is the structured audit
record. -/
structure RequirementResult where
  passed_eval : Bool
  evaluation_log : EvalLogEntry
deriving Repr, DecidableEq

/-- `RequirementResult.construct` (`Requirement.py` lines 22-32), with the
requirement's `__web_name__` and `name` passed explicitly. -/
def RequirementResult.construct (req_type req_name : String) (passed : Bool)
    (extra : LogExtra) : RequirementResult :=
  ⟨passed, ⟨req_type, req_name, passed, extra⟩⟩

/-!  ## The EVALUATING round of the orchestrator

`RequiredAISystem.chat_completions` (`system.py` lines 125-158) runs a `for`
loop over the configured requirements.  Each iteration first calls `stop()`
(reading the session's `should_stop` flag), then calls `req.evaluate` and, if
the result is falsy, breaks out of the loop.  An exception escaping
`req.evaluate` records an error and terminates the call.

A requirement's behaviour on the current conversation is abstracted as an
`EvalOutcome` (its `evaluate` either returns a `RequirementResult` or
raises).  The client-controlled `should_stop` flag is modelled by
`stopAfter`: the flag is observed `false` by the first `stopAfter` reads and
`true` from then on (`none` = the client never stops), which covers every
schedule in which the flag is set once and never cleared. -/

/-- Outcome of one `req.evaluate(conversation)` call: a returned
`RequirementResult`, or an exception of the given type name. -/
inductive EvalOutcome where
  | result (res : RequirementResult)
  | exn (exception_type : String)
deriving Repr, DecidableEq

/-- The value `stop()` reads on its `calls`-th invocation (0-based) under the
single-flip schedule `stopAfter`. -/
def stopFlag (stopAfter : Option Nat) (calls : Nat) : Bool :=
  match stopAfter with
  | none => false
  | some n => n ≤ calls

/-- Result of the `for req in requirements` loop of `system.py`
lines 133-158. -/
inductive ForOutcome where
  /-- `stop()` returned true before evaluating the requirement at this index -/
  | stoppedBy (idx : Nat)
  /-- the requirement at this index raised (`except` branch, lines 151-158) -/
  | errored (idx : Nat) (exception_type : String)
  /-- the requirement at this index returned a falsy result (`break`) -/
  | failedAt (idx : Nat)
  /-- the loop ran to completion with every requirement passing -/
  | allPassed
deriving Repr, DecidableEq

/-- The `for req in requirements` loop (`system.py` lines 133-158) over the
outcomes `evals` of the remaining requirements, whose first element has
configured position `i`.  Returns the positions of the requirements whose
`evaluate` was actually invoked (in invocation order), the updated count of
`stop()` reads, and the loop outcome. -/
def reqLoop (stopAfter : Option Nat) (stopCalls : Nat)
    (evals : List EvalOutcome) (i : Nat) : List Nat × Nat × ForOutcome :=
  match evals with
  | [] => ([], stopCalls, ForOutcome.allPassed)
  | e :: rest =>
    if stopFlag stopAfter stopCalls then
      ([], stopCalls + 1, ForOutcome.stoppedBy i)
    else
      match e with
      | EvalOutcome.exn t => ([i], stopCalls + 1, ForOutcome.errored i t)
      | EvalOutcome.result res =>
        if res.passed_eval then
          let r := reqLoop stopAfter (stopCalls + 1) rest (i + 1)
          (i :: r.1, r.2)
        else
          ([i], stopCalls + 1, ForOutcome.failedAt i)

/-- A passing evaluation outcome. -/
def passOutcome (res : RequirementResult) : Prop := res.passed_eval = true

/-- Auxiliary characterisation of `reqLoop` when the requirement at local
position `k` fails and all before it pass: exactly the requirements at local
positions `0..k` are invoked, in order, and the loop reports the failure. -/
theorem reqLoop_first_failure (k : Nat) :
    ∀ (evals : List EvalOutcome) (res : RequirementResult) (sc i : Nat),
    evals.get? k = some (EvalOutcome.result res) → res.passed_eval = false →
    (∀ j, j < k → ∃ r, evals.get? j = some (EvalOutcome.result r) ∧
      r.passed_eval = true) →
    reqLoop none sc evals i =
      (List.range' i (k + 1), sc + (k + 1), ForOutcome.failedAt (i + k)) := by
  induction k with
  | zero =>
    intro evals res sc i hget hfail _
    cases evals with
    | nil => simp [List.get?] at hget
    | cons e rest =>
      simp [List.get?] at hget
      subst hget
      simp [reqLoop, stopFlag, hfail, List.range']
  | succ k ih =>
    intro evals res sc i hget hfail hpre
    cases evals with
    | nil => simp [List.get?] at hget
    | cons e rest =>
      obtain ⟨r0, h0, hp0⟩ := hpre 0 (Nat.succ_pos k)
      simp [List.get?] at h0
      subst h0
      have hrest := ih rest res (sc + 1) (i + 1) (by simpa [List.get?] using hget)
        hfail (fun j hj => by
          have := hpre (j + 1) (Nat.succ_lt_succ hj)
          simpa [List.get?] using this)
      simp only [reqLoop, stopFlag, hp0, if_true, hrest]
      simp [List.range']
      omega

/-- C1: In the EVALUATING phase, requirements are evaluated in configured
order and, if requirement `k` fails (its result's passed flag is false),
requirements `k+1..n` are never invoked in that round: the invoked positions
are exactly `0..k` in order and the round ends reporting the failure at `k`. -/
theorem evaluating_short_circuit (evals : List EvalOutcome) (k : Nat)
    (res : RequirementResult)
    (hget : evals.get? k = some (EvalOutcome.result res))
    (hfail : res.passed_eval = false)
    (hpre : ∀ j, j < k → ∃ r, evals.get? j = some (EvalOutcome.result r) ∧
      r.passed_eval = true) :
    (reqLoop none 0 evals 0).1 = List.range (k + 1) ∧
    (reqLoop none 0 evals 0).2.2 = ForOutcome.failedAt k ∧
    ∀ j, k < j → j ∉ (reqLoop none 0 evals 0).1 := by
  have h := reqLoop_first_failure k evals res 0 0 hget hfail hpre
  rw [h]
  refine ⟨(List.range_eq_range' (k + 1)).symm, by simp, ?_⟩
  intro j hj hmem
  rw [← List.range_eq_range'] at hmem
  rw [List.mem_range] at hmem
  omega

/-- Sample passing requirement result used by concrete witnesses. -/
def passRes : RequirementResult :=
  RequirementResult.construct "Contains" "req_pass" true LogExtra.noExtra

/-- Sample failing requirement result used by concrete witnesses. -/
def failRes : RequirementResult :=
  RequirementResult.construct "Contains" "req_fail" false LogExtra.noExtra

/-- Concrete witness for `evaluating_short_circuit`: with outcomes
[pass, fail, pass], only requirements 0 and 1 are invoked. -/
theorem evaluating_short_circuit_witness :
    (reqLoop none 0
      [EvalOutcome.result passRes, EvalOutcome.result failRes,
        EvalOutcome.result passRes] 0).1 = List.range 2 ∧
    (reqLoop none 0
      [EvalOutcome.result passRes, EvalOutcome.result failRes,
        EvalOutcome.result passRes] 0).2.2 = ForOutcome.failedAt 1 ∧
    ∀ j, 1 < j → j ∉ (reqLoop none 0
      [EvalOutcome.result passRes, EvalOutcome.result failRes,
        EvalOutcome.result passRes] 0).1 :=
  evaluating_short_circuit
    [EvalOutcome.result passRes, EvalOutcome.result failRes,
      EvalOutcome.result passRes] 1 failRes rfl rfl
    (fun j hj => by
      have hj0 : j = 0 := by omega
      subst hj0
      exact ⟨passRes, rfl, rfl⟩)

/-!  ## The whole `chat_completions` call (`system.py` lines 26-224)

The remaining nondeterminism — what the generation provider returns for the
initial draft and for each revision, and how each requirement evaluates in
each round — is supplied as a script.  The session table
(`self.response_map`, keyed by the caller-supplied key) is tracked through
the single bit that matters to the claims: whether the caller's key is still
present when the call returns.  `key` truthiness at line 45 is `hasKey`. -/

/-- Outcome of one `ModelManager.complete_with_model` call: a draft response
with the given content, or an exception of the given type name. -/
inductive GenOutcome where
  | ok (content : String)
  | raised (exception_type : String)
deriving Repr, DecidableEq

/-- Script for one iteration of the `while not all_requirements_met` loop:
the behaviour of each requirement's `evaluate` on this round's conversation,
and what the revision provider would return if dispatched. -/
structure RoundScript where
  evals : List EvalOutcome
  revisionGen : GenOutcome
deriving Repr, DecidableEq

/-- Observable provider / requirement invocations made by the call, in
order. -/
inductive Event where
  /-- the initial `complete_with_model` call (`system.py` line 52) -/
  | generateCall
  /-- a revision `complete_with_model` call (`system.py` line 199) -/
  | reviseCall
  /-- `req.evaluate` on the requirement at this configured position -/
  | evalCall (idx : Nat)
deriving Repr, DecidableEq

/-- How a `chat_completions` call ends. -/
inductive CCOutcome where
  /-- all requirements met: `response["done"] = True` then return -/
  | completedAllMet
  /-- client stop observed before a requirement check (lines 134-140) -/
  | stoppedDuringEval
  /-- client stop observed after a failure, before revising (lines 167-170) -/
  | stoppedBeforeRevision
  /-- the initial generation raised (lines 53-60) -/
  | erroredInitialGen (exception_type : String)
  /-- a requirement's `evaluate` raised (lines 151-158) -/
  | erroredEval (idx : Nat) (exception_type : String)
  /-- a revision generation raised (lines 200-207) -/
  | erroredRevisionGen (exception_type : String)
  /-- the supplied script ran out while the loop would continue (the call is
  still in flight; not a terminal outcome) -/
  | scriptExhausted
deriving Repr, DecidableEq

/-- What a (terminated or exhausted) `chat_completions` call exposes to the
claims: how it ended, whether the caller's key is still in
`self.response_map` at return, and the provider/requirement calls made. -/
structure CCResult where
  outcome : CCOutcome
  keyInMap : Bool
  events : List Event
deriving Repr, DecidableEq

/-- The `while not all_requirements_met` loop (`system.py` lines 125-219),
driven by the per-round scripts.  `sc` counts `stop()` reads so far. -/
def loopRounds (hasKey : Bool) (stopAfter : Option Nat) :
    Nat → List RoundScript → CCResult
  | _, [] => ⟨CCOutcome.scriptExhausted, hasKey, []⟩
  | sc, r :: rest =>
    let lr := reqLoop stopAfter sc r.evals 0
    let evs := lr.1.map Event.evalCall
    match lr.2.2 with
    | ForOutcome.stoppedBy _ => ⟨CCOutcome.stoppedDuringEval, false, evs⟩
    | ForOutcome.errored i t => ⟨CCOutcome.erroredEval i t, hasKey, evs⟩
    | ForOutcome.allPassed => ⟨CCOutcome.completedAllMet, false, evs⟩
    | ForOutcome.failedAt _ =>
      if stopFlag stopAfter lr.2.1 then
        ⟨CCOutcome.stoppedBeforeRevision, false, evs⟩
      else
        match r.revisionGen with
        | GenOutcome.raised t =>
          ⟨CCOutcome.erroredRevisionGen t, hasKey, evs ++ [Event.reviseCall]⟩
        | GenOutcome.ok _ =>
          let res := loopRounds hasKey stopAfter (lr.2.1 + 1) rest
          ⟨res.outcome, res.keyInMap, evs ++ Event.reviseCall :: res.events⟩

/-- `RequiredAISystem.chat_completions` (`system.py` lines 26-224): insert
the key (line 45-46), make the initial generation call (line 52, erroring
out without touching the session table on failure), then run the
revise/evaluate loop. -/
def chatCompletions (hasKey : Bool) (stopAfter : Option Nat)
    (initialGen : GenOutcome) (rounds : List RoundScript) : CCResult :=
  match initialGen with
  | GenOutcome.raised t =>
    ⟨CCOutcome.erroredInitialGen t, hasKey, [Event.generateCall]⟩
  | GenOutcome.ok _ =>
    let res := loopRounds hasKey stopAfter 0 rounds
    ⟨res.outcome, res.keyInMap, Event.generateCall :: res.events⟩

/-- Terminal outcomes on which `chat_completions` runs
`if key in self.response_map: del self.response_map[key]` before returning. -/
def CCOutcome.isCleanTerminal : CCOutcome → Bool
  | CCOutcome.completedAllMet => true
  | CCOutcome.stoppedDuringEval => true
  | CCOutcome.stoppedBeforeRevision => true
  | _ => false

/-- Terminal outcomes corresponding to the ERRORED state. -/
def CCOutcome.isErrored : CCOutcome → Bool
  | CCOutcome.erroredInitialGen _ => true
  | CCOutcome.erroredEval _ _ => true
  | CCOutcome.erroredRevisionGen _ => true
  | _ => false

/-- Key retention through the round loop: the key is removed exactly on the
done/stopped outcomes. -/
theorem loopRounds_keyInMap (hasKey : Bool) (stopAfter : Option Nat) :
    ∀ (rounds : List RoundScript) (sc : Nat),
    (loopRounds hasKey stopAfter sc rounds).keyInMap =
      (if (loopRounds hasKey stopAfter sc rounds).outcome.isCleanTerminal
        then false else hasKey) := by
  intro rounds
  induction rounds with
  | nil => intro sc; simp [loopRounds, CCOutcome.isCleanTerminal]
  | cons r rest ih =>
    intro sc
    simp only [loopRounds]
    split
    · simp [CCOutcome.isCleanTerminal]
    · simp [CCOutcome.isCleanTerminal]
    · simp [CCOutcome.isCleanTerminal]
    · split
      · simp [CCOutcome.isCleanTerminal]
      · split
        · simp [CCOutcome.isCleanTerminal]
        · exact ih _

/-- Key retention for the whole call. -/
theorem chatCompletions_keyInMap (hasKey : Bool) (stopAfter : Option Nat)
    (ig : GenOutcome) (rounds : List RoundScript) :
    (chatCompletions hasKey stopAfter ig rounds).keyInMap =
      (if (chatCompletions hasKey stopAfter ig rounds).outcome.isCleanTerminal
        then false else hasKey) := by
  cases ig with
  | raised t => rfl
  | ok c =>
    have h := loopRounds_keyInMap hasKey stopAfter rounds 0
    simpa [chatCompletions] using h

/-- C3 (amended): the caller-supplied key is removed from the live-session
table before returning on the done and stopped terminal outcomes, but on
every errored terminal outcome (generation failure or requirement-evaluation
exception) the key is left in the table. -/
theorem session_key_removal (hasKey : Bool) (stopAfter : Option Nat)
    (ig : GenOutcome) (rounds : List RoundScript) :
    ((chatCompletions hasKey stopAfter ig rounds).outcome.isCleanTerminal =
        true →
      (chatCompletions hasKey stopAfter ig rounds).keyInMap = false) ∧
    ((chatCompletions hasKey stopAfter ig rounds).outcome.isErrored = true →
      (chatCompletions hasKey stopAfter ig rounds).keyInMap = hasKey) := by
  have h := chatCompletions_keyInMap hasKey stopAfter ig rounds
  constructor
  · intro hct
    rw [h, hct]
    rfl
  · intro he
    rw [h]
    have hcf :
        (chatCompletions hasKey stopAfter ig rounds).outcome.isCleanTerminal
          = false := by
      cases houtcome : (chatCompletions hasKey stopAfter ig rounds).outcome <;>
        simp [CCOutcome.isErrored, CCOutcome.isCleanTerminal, houtcome]
          at he ⊢
    rw [hcf]
    rfl

/-- Concrete witness for `session_key_removal`: a call that finishes with all
requirements met has its key removed, and a call whose initial generation
raises keeps its key in the table. -/
theorem session_key_removal_witness :
    (chatCompletions true none (GenOutcome.ok "The sky is blue.")
      [⟨[EvalOutcome.result passRes], GenOutcome.ok "x"⟩]).keyInMap = false ∧
    (chatCompletions true none (GenOutcome.raised "ConnectionError")
      []).keyInMap = true :=
  ⟨(session_key_removal true none (GenOutcome.ok "The sky is blue.")
      [⟨[EvalOutcome.result passRes], GenOutcome.ok "x"⟩]).1 (by decide),
    (session_key_removal true none (GenOutcome.raised "ConnectionError")
      []).2 (by decide)⟩

/-- C3 counterexample: a call with a key whose initial generation raises ends
in an errored terminal outcome (`finish_reason = "Error generating
prospect"`, `system.py` lines 53-60) yet returns with the key still present
in the session table. -/
theorem session_key_errored_counterexample :
    (chatCompletions true none (GenOutcome.raised "ConnectionError")
      []).outcome.isErrored = true ∧
    (chatCompletions true none (GenOutcome.raised "ConnectionError")
      []).keyInMap = true :=
  ⟨rfl, rfl⟩

/-- The positional parameters of `RequiredAISystem.chat_completions`
(`system.py` line 26) after `self`, in declaration order. -/
def chat_completions_params : List String :=
  ["model_name", "requirements", "messages", "params", "key"]

/-- The positional arguments the HTTP route handler passes to
`self.system.chat_completions` (`server.py` line 63) after the bound `self`,
in call order. -/
def server_chat_completions_args : List String :=
  ["model_name", "requirements", "messages", "params", "key",
    "initial_response"]

/-- C2: `chat_completions` has no resume path.  The orchestrator's signature
does not accept the `initial_response` the route handler passes (the
handler's call supplies more positional arguments than the method declares,
so it raises `TypeError`), and on every input the embedded orchestrator's
first provider event is the initial generation call — there is no path that
re-enters EVALUATING from a prior response without generating first. -/
theorem no_resume_from_initial_response :
    chat_completions_params.length < server_chat_completions_args.length ∧
    "initial_response" ∉ chat_completions_params ∧
    ∀ (hasKey : Bool) (stopAfter : Option Nat) (ig : GenOutcome)
      (rounds : List RoundScript),
      (chatCompletions hasKey stopAfter ig rounds).events.head? =
        some Event.generateCall :=
  ⟨by decide, by decide,
    fun hasKey stopAfter ig rounds => by cases ig <;> rfl⟩

/-!  ## The Fallback Provider (`providers/fallback_provider.py`)

`FallbackProvider.complete` walks the configured `(model_name, max_retry,
delay_between_retry)` list starting at the persisted `current_index`,
wrapping modulo the list length, retrying each model up to `max_retry`
times.  The inner `RequiredAISystem.singleton.chat_completions` call is
abstracted as an oracle from (model position, attempt number) to its
outcome.  `ModelRetryParameters` is imported by `fallback_provider.py` from
`ModelConfig.py` but its class is absent from the sources; its three fields
are exactly those read at `fallback_provider.py` lines 45-65 (and match the
spec's `ordered_models` entry shape). -/

/-- One entry of the fallback model list. -/
structure ModelRetryParameters where
  model_name : String
  max_retry : Nat
  delay_between_retry : Nat
deriving Repr, DecidableEq

/-- The fields of an inner `chat_completions` response read by the
acceptance check at `fallback_provider.py` line 59: the top-level `done`
flag, whether `choices[0]` carries an `errors` key, and
`choices[0].get('finish_reason')` (`none` = key absent). -/
structure InnerResponse where
  done : Bool
  choiceHasErrors : Bool
  finish_reason : Option String
deriving Repr, DecidableEq

/-- Outcome of one inner completion attempt: a returned response or a raised
exception with the given text. -/
inductive AttemptOutcome where
  | response (r : InnerResponse)
  | raised (errText : String)
deriving Repr, DecidableEq

/-- One element of the `attempts` audit list: either the inner response
(line 56) or the `{'error': str(e), 'model': model_name}` dict (line 67). -/
inductive AttemptRecord where
  | response (r : InnerResponse)
  | errorDict (error : String) (model : String)
deriving Repr, DecidableEq

/-- The acceptance test of `fallback_provider.py` line 59: the response is
`done`, its first choice has no `errors` key, and its finish reason is
neither `'error'` nor `'Stopped by client'`. -/
def acceptedResponse (r : InnerResponse) : Bool :=
  r.done && !r.choiceHasErrors &&
    !(r.finish_reason == some "error" ||
      r.finish_reason == some "Stopped by client")

/-- The retry loop for one model (`fallback_provider.py` lines 48-70):
attempts numbered from `attempt`, with `remaining` attempts left.  Returns
the attempt records appended and the accepted response, if any. -/
def tryModel (oracle : Nat → Nat → AttemptOutcome) (model_name : String)
    (idx : Nat) : Nat → Nat → List AttemptRecord × Option InnerResponse
  | _, 0 => ([], none)
  | attempt, remaining + 1 =>
    match oracle idx attempt with
    | AttemptOutcome.raised e =>
      let r := tryModel oracle model_name idx (attempt + 1) remaining
      (AttemptRecord.errorDict e model_name :: r.1, r.2)
    | AttemptOutcome.response resp =>
      if acceptedResponse resp then
        ([AttemptRecord.response resp], some resp)
      else
        let r := tryModel oracle model_name idx (attempt + 1) remaining
        (AttemptRecord.response resp :: r.1, r.2)

/-- Accumulated observation of the model search: the `attempts` audit list,
the model positions examined in order, and the accepted `(position,
response)` if any. -/
structure SearchResult where
  attempts : List AttemptRecord
  visited : List Nat
  found : Option (Nat × InnerResponse)
deriving Repr, DecidableEq

/-- The `for offset in range(len(self.config.models))` loop
(`fallback_provider.py` lines 43-70), examining position
`(start + offset) % len(models)` at each step; `fuel` is the number of
offsets still to examine. -/
def fpSearch (models : List ModelRetryParameters)
    (oracle : Nat → Nat → AttemptOutcome) (start : Nat) :
    Nat → Nat → SearchResult
  | _, 0 => ⟨[], [], none⟩
  | offset, fuel + 1 =>
    let idx := (start + offset) % models.length
    let rp := models.getD idx ⟨"", 0, 0⟩
    let t := tryModel oracle rp.model_name idx 0 rp.max_retry
    match t.2 with
    | some resp => ⟨t.1, [idx], some (idx, resp)⟩
    | none =>
      let r := fpSearch models oracle start (offset + 1) fuel
      ⟨t.1 ++ r.attempts, idx :: r.visited, r.found⟩

/-- What escapes `FallbackProvider.complete` when no draft is accepted. -/
inductive FPRaised where
  /-- the `ProviderException(provider, e, {... 'attempts': attempts})` that
  lines 73-80 construct -/
  | providerException (provider : String) (cause : String)
      (attempts : List AttemptRecord)
  /-- `UnboundLocalError` on reading a local name that is unbound at that
  point -/
  | unboundLocal (var : String)
deriving Repr, DecidableEq

/-- Result of `FallbackProvider.complete`: an accepted response together
with the accepting position, the audit list and the updated
`current_index`; or the exception raised, with the (locally accumulated but
not propagated) attempts and the unchanged index. -/
inductive FPResult where
  | success (resp : InnerResponse) (acceptedIdx : Nat)
      (attempts : List AttemptRecord) (newIndex : Nat)
  | failure (raised : FPRaised) (attemptsLocal : List AttemptRecord)
      (newIndex : Nat)
deriving Repr, DecidableEq

/-- `FallbackProvider.complete` (`fallback_provider.py` lines 17-80).  On
acceptance, `self.current_index = idx` (line 60) before returning.  On
exhaustion, line 73 executes `raise ProviderException(..., e, ...)`: the
name `e` was only ever bound as an `except ... as e` target, and Python 3
clears such a binding when the `except` clause exits (and if no attempt
raised, `e` was never bound at all), so evaluating the argument `e` raises
`UnboundLocalError` — the `ProviderException` is never constructed. -/
def fallbackComplete (models : List ModelRetryParameters)
    (oracle : Nat → Nat → AttemptOutcome) (current_index : Nat) : FPResult :=
  match (fpSearch models oracle current_index 0 models.length).found with
  | some p => FPResult.success p.2 p.1
      (fpSearch models oracle current_index 0 models.length).attempts p.1
  | none => FPResult.failure (FPRaised.unboundLocal "e")
      (fpSearch models oracle current_index 0 models.length).attempts
      current_index

/-- The first model position a `complete` call examines. -/
def firstSearchPosition (models : List ModelRetryParameters)
    (oracle : Nat → Nat → AttemptOutcome) (start : Nat) : Option Nat :=
  (fpSearch models oracle start 0 models.length).visited.head?

/-- Any accepted position produced by the search is a valid position. -/
theorem fpSearch_found_lt (models : List ModelRetryParameters)
    (oracle : Nat → Nat → AttemptOutcome) (start : Nat)
    (hn : 0 < models.length) :
    ∀ (fuel offset i : Nat) (resp : InnerResponse),
    (fpSearch models oracle start offset fuel).found = some (i, resp) →
    i < models.length := by
  intro fuel
  induction fuel with
  | zero =>
    intro offset i resp h
    simp [fpSearch] at h
  | succ fuel ih =>
    intro offset i resp h
    simp only [fpSearch] at h
    split at h
    · simp only [Option.some.injEq, Prod.mk.injEq] at h
      exact h.1 ▸ Nat.mod_lt _ hn
    · exact ih (offset + 1) i resp h

/-- The search of a call with persisted index `start` examines
`start % len(models)` first. -/
theorem fpSearch_visited_head (models : List ModelRetryParameters)
    (oracle : Nat → Nat → AttemptOutcome) (start fuel : Nat)
    (hfuel : 0 < fuel) :
    (fpSearch models oracle start 0 fuel).visited.head? =
      some (start % models.length) := by
  cases fuel with
  | zero => omega
  | succ fuel =>
    simp only [fpSearch]
    split <;> simp

/-- C4: a `complete` call begins its model search at the persisted
round-robin index and, on acceptance at position `i`, persists `i`; hence
the immediately following call (whatever its oracle `oracle2`) examines
position `i` first, not position 0. -/
theorem fallback_rotation (models : List ModelRetryParameters)
    (oracle oracle2 : Nat → Nat → AttemptOutcome) (start : Nat)
    (resp : InnerResponse) (i : Nat) (attempts : List AttemptRecord)
    (newIdx : Nat)
    (hsucc : fallbackComplete models oracle start =
      FPResult.success resp i attempts newIdx) :
    newIdx = i ∧ i < models.length ∧
    firstSearchPosition models oracle2 newIdx = some i := by
  have hn : 0 < models.length := by
    rcases Nat.eq_zero_or_pos models.length with h0 | hpos
    · exfalso
      unfold fallbackComplete at hsucc
      rw [h0] at hsucc
      simp [fpSearch] at hsucc
    · exact hpos
  unfold fallbackComplete at hsucc
  cases hfound : (fpSearch models oracle start 0 models.length).found with
  | none =>
    rw [hfound] at hsucc
    simp at hsucc
  | some p =>
    rw [hfound] at hsucc
    simp only [FPResult.success.injEq] at hsucc
    obtain ⟨hresp, hidx, hatts, hnew⟩ := hsucc
    have hlt : p.1 < models.length :=
      fpSearch_found_lt models oracle start hn models.length 0 p.1 p.2
        (by rw [hfound])
    refine ⟨by omega, by omega, ?_⟩
    rw [firstSearchPosition,
      fpSearch_visited_head models oracle2 newIdx models.length hn,
      Nat.mod_eq_of_lt (by omega : newIdx < models.length)]
    congr 1
    omega

/-- Fallback list used by concrete witnesses: three models, one retry
each. -/
def models3 : List ModelRetryParameters :=
  [⟨"alpha", 1, 0⟩, ⟨"beta", 1, 0⟩, ⟨"gamma", 1, 0⟩]

/-- Oracle under which only the model at position 2 ever produces an
acceptable response. -/
def onlyThirdSucceeds : Nat → Nat → AttemptOutcome :=
  fun idx _ =>
    if idx == 2 then AttemptOutcome.response ⟨true, false, some "stop"⟩
    else AttemptOutcome.response ⟨false, false, none⟩

/-- Concrete witness for `fallback_rotation`: with three models of which
only the third succeeds, the call accepts at position 2 and the next call
examines position 2 first. -/
theorem fallback_rotation_witness :
    (2 : Nat) = 2 ∧ 2 < models3.length ∧
    firstSearchPosition models3 onlyThirdSucceeds 2 = some 2 :=
  fallback_rotation models3 onlyThirdSucceeds onlyThirdSucceeds 0
    ⟨true, false, some "stop"⟩ 2
    [AttemptRecord.response ⟨false, false, none⟩,
      AttemptRecord.response ⟨false, false, none⟩,
      AttemptRecord.response ⟨true, false, some "stop"⟩] 2 (by decide)

/-- C5: when every model and every retry is exhausted without an accepted
draft (here: one model, one retry, returning a non-`done` response), the
`raise` at `fallback_provider.py` line 73 evaluates the cleared `except`
target `e` and so raises `UnboundLocalError`, not a `ProviderException`
carrying the attempt list. -/
theorem fallback_exhaustion_unbound_local :
    fallbackComplete [⟨"m", 1, 0⟩]
      (fun _ _ => AttemptOutcome.response ⟨false, false, none⟩) 0 =
    FPResult.failure (FPRaised.unboundLocal "e")
      [AttemptRecord.response ⟨false, false, none⟩] 0 := rfl

/-!  ## The Regex requirement (`RequirementTypes.py` lines 48-98)

The Python `re` engine is external: a pattern string is embedded together
with the engine's behaviour on it — `re.search(pattern, content)` either
raises `re.error` (malformed pattern, whatever the content) or tests the
content with a fixed match predicate. -/

/-- Python's `sub in s` substring test on strings. -/
def pyInStr (sub s : String) : Bool := decide (sub.toList <:+: s.toList)

/-- A regex pattern and the engine's behaviour on it. -/
structure PyRegex where
  pattern : String
  compiled : Except String (String → Bool)

/-- `RegexRequirement` (`RequirementTypes.py` lines 48-57). -/
structure RegexRequirement where
  positive_regexes : List PyRegex
  negative_regexes : List PyRegex
  additional_prompt : Option String
  name : String

/-- The positive-pattern loop (`RequirementTypes.py` lines 72-83): first
pattern that is malformed or does not match produces the failure result;
`none` means the loop fell through. -/
def checkPositives (name content : String) :
    List PyRegex → Option RequirementResult
  | [] => none
  | rx :: rest =>
    match rx.compiled with
    | Except.error e =>
      some (RequirementResult.construct "Regex" name false
        (LogExtra.errorMsg
          ("Invalid positive regex \x27" ++ rx.pattern ++ "\x27: " ++ e)))
    | Except.ok search =>
      if search content then checkPositives name content rest
      else
        some (RequirementResult.construct "Regex" name false
          (LogExtra.patternInfo "positive" rx.pattern))

/-- The negative-pattern loop (`RequirementTypes.py` lines 85-96): first
pattern that is malformed or does match produces the failure result. -/
def checkNegatives (name content : String) :
    List PyRegex → Option RequirementResult
  | [] => none
  | rx :: rest =>
    match rx.compiled with
    | Except.error e =>
      some (RequirementResult.construct "Regex" name false
        (LogExtra.errorMsg
          ("Invalid negative regex \x27" ++ rx.pattern ++ "\x27: " ++ e)))
    | Except.ok search =>
      if search content then
        some (RequirementResult.construct "Regex" name false
          (LogExtra.patternInfo "negative" rx.pattern))
      else checkNegatives name content rest

/-- `RegexRequirement.evaluate` (`RequirementTypes.py` lines 59-98) applied
to the final message's content. -/
def RegexRequirement.evaluate (r : RegexRequirement) (content : String) :
    RequirementResult :=
  match checkPositives r.name content r.positive_regexes with
  | some res => res
  | none =>
    match checkNegatives r.name content r.negative_regexes with
    | some res => res
    | none => RequirementResult.construct "Regex" r.name true LogExtra.noExtra

/-- The pattern compiled without error. -/
def isValidRegex (rx : PyRegex) : Bool :=
  match rx.compiled with
  | Except.ok _ => true
  | Except.error _ => false

/-- The pattern is well-formed and matches the content. -/
def validMatches (content : String) (rx : PyRegex) : Bool :=
  match rx.compiled with
  | Except.ok search => search content
  | Except.error _ => false

/-- The pattern is well-formed and does not match the content. -/
def validNotMatches (content : String) (rx : PyRegex) : Bool :=
  match rx.compiled with
  | Except.ok search => !(search content)
  | Except.error _ => false

theorem checkPositives_none_iff (name content : String)
    (ps : List PyRegex) :
    checkPositives name content ps = none ↔
      ∀ rx ∈ ps, validMatches content rx = true := by
  induction ps with
  | nil => simp [checkPositives]
  | cons rx rest ih =>
    cases hc : rx.compiled with
    | error e => simp [checkPositives, hc, validMatches]
    | ok search =>
      cases hs : search content with
      | true => simp [checkPositives, hc, hs, ih, validMatches]
      | false => simp [checkPositives, hc, hs, validMatches]

theorem checkNegatives_none_iff (name content : String)
    (ns : List PyRegex) :
    checkNegatives name content ns = none ↔
      ∀ rx ∈ ns, validNotMatches content rx = true := by
  induction ns with
  | nil => simp [checkNegatives]
  | cons rx rest ih =>
    cases hc : rx.compiled with
    | error e => simp [checkNegatives, hc, validNotMatches]
    | ok search =>
      cases hs : search content with
      | true => simp [checkNegatives, hc, hs, validNotMatches]
      | false => simp [checkNegatives, hc, hs, ih, validNotMatches]

theorem checkPositives_some_fail (name content : String) :
    ∀ (ps : List PyRegex) (res : RequirementResult),
    checkPositives name content ps = some res → res.passed_eval = false := by
  intro ps
  induction ps with
  | nil => intro res h; simp [checkPositives] at h
  | cons rx rest ih =>
    intro res h
    cases hc : rx.compiled with
    | error e =>
      simp [checkPositives, hc] at h
      rw [← h]
      rfl
    | ok search =>
      cases hs : search content with
      | true =>
        simp [checkPositives, hc, hs] at h
        exact ih res h
      | false =>
        simp [checkPositives, hc, hs] at h
        rw [← h]
        rfl

theorem checkNegatives_some_fail (name content : String) :
    ∀ (ns : List PyRegex) (res : RequirementResult),
    checkNegatives name content ns = some res → res.passed_eval = false := by
  intro ns
  induction ns with
  | nil => intro res h; simp [checkNegatives] at h
  | cons rx rest ih =>
    intro res h
    cases hc : rx.compiled with
    | error e =>
      simp [checkNegatives, hc] at h
      rw [← h]
      rfl
    | ok search =>
      cases hs : search content with
      | true =>
        simp [checkNegatives, hc, hs] at h
        rw [← h]
        rfl
      | false =>
        simp [checkNegatives, hc, hs] at h
        exact ih res h

theorem checkPositives_reach_malformed (name content p e : String)
    (post : List PyRegex) :
    ∀ pre : List PyRegex, (∀ q ∈ pre, validMatches content q = true) →
    checkPositives name content
        (pre ++ PyRegex.mk p (Except.error e) :: post) =
      some (RequirementResult.construct "Regex" name false
        (LogExtra.errorMsg
          ("Invalid positive regex \x27" ++ p ++ "\x27: " ++ e))) := by
  intro pre
  induction pre with
  | nil => intro _; simp [checkPositives]
  | cons q pre ih =>
    intro h
    have hq := h q (List.mem_cons_self q pre)
    cases hc : q.compiled with
    | error e2 => simp [validMatches, hc] at hq
    | ok search =>
      have hqs : search content = true := by
        simpa [validMatches, hc] using hq
      simp only [List.cons_append, checkPositives, hc]
      rw [if_pos hqs]
      exact ih (fun x hx => h x (List.mem_cons_of_mem q hx))

theorem checkNegatives_reach_malformed (name content p e : String)
    (post : List PyRegex) :
    ∀ pre : List PyRegex, (∀ q ∈ pre, validNotMatches content q = true) →
    checkNegatives name content
        (pre ++ PyRegex.mk p (Except.error e) :: post) =
      some (RequirementResult.construct "Regex" name false
        (LogExtra.errorMsg
          ("Invalid negative regex \x27" ++ p ++ "\x27: " ++ e))) := by
  intro pre
  induction pre with
  | nil => intro _; simp [checkNegatives]
  | cons q pre ih =>
    intro h
    have hq := h q (List.mem_cons_self q pre)
    cases hc : q.compiled with
    | error e2 => simp [validNotMatches, hc] at hq
    | ok search =>
      have hqs : search content = false := by
        simpa [validNotMatches, hc] using hq
      simp only [List.cons_append, checkNegatives, hc]
      rw [if_neg]
      · exact ih (fun x hx => h x (List.mem_cons_of_mem q hx))
      · simp [hqs]

/-- Unconditional boolean characterisation of the Regex pass flag. -/
theorem regex_evaluate_passed (r : RegexRequirement) (content : String) :
    (r.evaluate content).passed_eval =
      (r.positive_regexes.all (validMatches content) &&
        r.negative_regexes.all (validNotMatches content)) := by
  unfold RegexRequirement.evaluate
  cases hp : checkPositives r.name content r.positive_regexes with
  | some res =>
    have hf := checkPositives_some_fail r.name content r.positive_regexes
      res hp
    have hnall : r.positive_regexes.all (validMatches content) = false := by
      rw [← Bool.not_eq_true, List.all_eq_true]
      intro hall
      rw [(checkPositives_none_iff r.name content r.positive_regexes).mpr
        hall] at hp
      cases hp
    rw [hf, hnall, Bool.false_and]
  | none =>
    have hposall := (checkPositives_none_iff r.name content
      r.positive_regexes).mp hp
    have hall : r.positive_regexes.all (validMatches content) = true :=
      List.all_eq_true.mpr hposall
    cases hq : checkNegatives r.name content r.negative_regexes with
    | some res =>
      have hf := checkNegatives_some_fail r.name content
        r.negative_regexes res hq
      have hnall : r.negative_regexes.all (validNotMatches content)
          = false := by
        rw [← Bool.not_eq_true, List.all_eq_true]
        intro hall2
        rw [(checkNegatives_none_iff r.name content
          r.negative_regexes).mpr hall2] at hq
        cases hq
      rw [hf, hall, hnall, Bool.true_and]
    | none =>
      have hnegall := (checkNegatives_none_iff r.name content
        r.negative_regexes).mp hq
      rw [hall, List.all_eq_true.mpr hnegall, Bool.true_and]
      rfl

/-- C7: with the final message's content `c`, `RegexRequirement.evaluate`
passes iff `c` matches every well-formed positive pattern and none of the
negative patterns; a malformed pattern forces a fail, and when evaluation
reaches a malformed pattern the returned (never-raised) failure's log
carries the pattern and the error text. -/
theorem regex_requirement_spec (r : RegexRequirement) (content : String) :
    ((∀ rx ∈ r.positive_regexes ++ r.negative_regexes,
        isValidRegex rx = true) →
      ((r.evaluate content).passed_eval = true ↔
        (∀ rx ∈ r.positive_regexes, validMatches content rx = true) ∧
        (∀ rx ∈ r.negative_regexes, validMatches content rx = false))) ∧
    ((∃ rx ∈ r.positive_regexes ++ r.negative_regexes,
        isValidRegex rx = false) →
      (r.evaluate content).passed_eval = false) ∧
    (∀ (pre post : List PyRegex) (p e : String),
      r.positive_regexes = pre ++ PyRegex.mk p (Except.error e) :: post →
      (∀ q ∈ pre, validMatches content q = true) →
      r.evaluate content = RequirementResult.construct "Regex" r.name false
        (LogExtra.errorMsg
          ("Invalid positive regex \x27" ++ p ++ "\x27: " ++ e))) ∧
    (∀ (pre post : List PyRegex) (p e : String),
      (∀ rx ∈ r.positive_regexes, validMatches content rx = true) →
      r.negative_regexes = pre ++ PyRegex.mk p (Except.error e) :: post →
      (∀ q ∈ pre, validNotMatches content q = true) →
      r.evaluate content = RequirementResult.construct "Regex" r.name false
        (LogExtra.errorMsg
          ("Invalid negative regex \x27" ++ p ++ "\x27: " ++ e))) := by
  refine ⟨?_, ?_, ?_, ?_⟩
  · intro hvalid
    rw [regex_evaluate_passed, Bool.and_eq_true, List.all_eq_true,
      List.all_eq_true]
    constructor
    · rintro ⟨h1, h2⟩
      refine ⟨h1, fun rx hm => ?_⟩
      have h2x := h2 rx hm
      have hv := hvalid rx (List.mem_append_right _ hm)
      cases hc : rx.compiled with
      | error e2 => simp [isValidRegex, hc] at hv
      | ok s =>
        simp [validNotMatches, hc] at h2x
        simp [validMatches, hc, h2x]
    · rintro ⟨h1, h2⟩
      refine ⟨h1, fun rx hm => ?_⟩
      have h2x := h2 rx hm
      have hv := hvalid rx (List.mem_append_right _ hm)
      cases hc : rx.compiled with
      | error e2 => simp [isValidRegex, hc] at hv
      | ok s =>
        simp [validMatches, hc] at h2x
        simp [validNotMatches, hc, h2x]
  · rintro ⟨rx, hmem, hinv⟩
    rw [regex_evaluate_passed]
    rcases List.mem_append.mp hmem with hm | hm
    · have hvm : validMatches content rx = false := by
        cases hc : rx.compiled with
        | error e2 => simp [validMatches, hc]
        | ok s => simp [isValidRegex, hc] at hinv
      have hf : r.positive_regexes.all (validMatches content) = false := by
        rw [← Bool.not_eq_true, List.all_eq_true]
        intro hall
        simp [hall rx hm] at hvm
      rw [hf, Bool.false_and]
    · have hvm : validNotMatches content rx = false := by
        cases hc : rx.compiled with
        | error e2 => simp [validNotMatches, hc]
        | ok s => simp [isValidRegex, hc] at hinv
      have hf : r.negative_regexes.all (validNotMatches content)
          = false := by
        rw [← Bool.not_eq_true, List.all_eq_true]
        intro hall
        simp [hall rx hm] at hvm
      rw [hf, Bool.and_false]
  · intro pre post p e hdec hpre
    unfold RegexRequirement.evaluate
    rw [hdec, checkPositives_reach_malformed r.name content p e post pre
      hpre]
  · intro pre post p e hposall hdec hpre
    unfold RegexRequirement.evaluate
    rw [(checkPositives_none_iff r.name content r.positive_regexes).mpr
      hposall, hdec,
      checkNegatives_reach_malformed r.name content p e post pre hpre]

/-- Regex requirement used by the concrete witness: content must contain
"blue" and must not contain "red". -/
def regexReqW : RegexRequirement :=
  ⟨[⟨"blue", Except.ok (fun c => pyInStr "blue" c)⟩],
    [⟨"red", Except.ok (fun c => pyInStr "red" c)⟩], none, "colors"⟩

/-- Concrete witness for `regex_requirement_spec`: on an all-well-formed
requirement the pass flag is the claimed iff. -/
theorem regex_requirement_spec_witness :
    (regexReqW.evaluate "The sky is blue.").passed_eval = true ↔
      (∀ rx ∈ regexReqW.positive_regexes,
        validMatches "The sky is blue." rx = true) ∧
      (∀ rx ∈ regexReqW.negative_regexes,
        validMatches "The sky is blue." rx = false) :=
  (regex_requirement_spec regexReqW "The sky is blue.").1 (by
    intro rx hm
    rcases List.mem_append.mp hm with hm | hm <;>
      simp only [regexReqW, List.mem_singleton] at hm <;>
      rw [hm] <;> rfl)

/-!  ## The Written requirement (`RequirementTypes.py` lines 124-291) -/

/-- Python `str.lower()` (per-character lowering, as exercised by the ASCII
grader answers). -/
def pyLower (s : String) : String := String.map Char.toLower s

/-- Python `str.strip()`: drop leading and trailing whitespace. -/
def pyStrip (s : String) : String := s.trim

/-- `WrittenRequirement` (`RequirementTypes.py` lines 124-138). -/
structure WrittenRequirement where
  evaluation_model : String
  value : List String
  positive_examples : List String
  negative_examples : List String
  token_limit : Nat
  name : String
deriving Repr, DecidableEq

/-- Outcome of obtaining the grading: the grader response's message content
(`get_msg_content(response)`), or an exception raised anywhere inside the
`try` block of `evaluate`. -/
inductive GradeOutcome where
  | response (content : String)
  | raised (errText : String)
deriving Repr, DecidableEq

/-- The answer parse of `RequirementTypes.py` lines 271-272:
`eval_text = get_msg_content(response).strip().lower()` then
`result = "yes" in eval_text and "no" not in eval_text`. -/
def writtenParse (content : String) : Bool :=
  pyInStr "yes" (pyLower (pyStrip content)) &&
    !(pyInStr "no" (pyLower (pyStrip content)))

/-- The result construction of `WrittenRequirement.evaluate`
(`RequirementTypes.py` lines 268-283): parse the grading response into the
pass flag with the response recorded in the log, or turn any exception into
a failing result with the error recorded (`except` branch, lines
280-283). -/
def writtenEvaluateResult (req : WrittenRequirement)
    (outcome : GradeOutcome) : RequirementResult :=
  match outcome with
  | GradeOutcome.response content =>
    RequirementResult.construct "Written" req.name (writtenParse content)
      (LogExtra.writtenEval content (writtenParse content))
  | GradeOutcome.raised e =>
    RequirementResult.construct "Written" req.name false
      (LogExtra.errorMsg
        ("Error evaluating written requirement \x27" ++ req.name ++
          "\x27: " ++ e))

/-- C8: the Written requirement passes iff the grader's answer, stripped and
lowercased, contains "yes" and does not contain "no"; the response is
recorded in the log; and an exception while obtaining the grading yields a
fail with the error recorded — never a silent pass. -/
theorem written_grading_parse (req : WrittenRequirement) :
    (∀ content : String,
      ((writtenEvaluateResult req
          (GradeOutcome.response content)).passed_eval = true ↔
        ("yes".toList <:+: (pyLower (pyStrip content)).toList ∧
          ¬ "no".toList <:+: (pyLower (pyStrip content)).toList)) ∧
      (writtenEvaluateResult req
          (GradeOutcome.response content)).evaluation_log.extra =
        LogExtra.writtenEval content (writtenParse content)) ∧
    (∀ e : String,
      (writtenEvaluateResult req (GradeOutcome.raised e)).passed_eval
          = false ∧
      (writtenEvaluateResult req
          (GradeOutcome.raised e)).evaluation_log.extra =
        LogExtra.errorMsg
          ("Error evaluating written requirement \x27" ++ req.name ++
            "\x27: " ++ e)) := by
  constructor
  · intro content
    constructor
    · simp [writtenEvaluateResult, writtenParse, pyInStr,
        RequirementResult.construct]
    · rfl
  · intro e
    exact ⟨rfl, rfl⟩

/-!  ## The Conversation Selector (`ModelConfig.py` lines 56-179)

The claims concern the index/range/injection stage (`_inner_get_messages`
and the `messages_to_include` dispatch of `select`, lines 139-179), which
operates on the already role- and tag-filtered sequence. -/

/-- One entry of `messages_to_include`: a single (possibly negative) index,
a literal message dict injected verbatim, or a 2-element `(start, end)`
pair. -/
inductive IncludeItem where
  | idx (i : Int)
  | literal (m : Message)
  | rangePair (lo hi : Int)
deriving Repr, DecidableEq

/-- Python `range(a, b)` over integers, ascending with step 1. -/
def intRangeAsc (a b : Int) : List Int :=
  (List.range (b - a).toNat).map (fun k => a + k)

/-- Python `range(a, b, -1)` over integers, descending. -/
def intRangeDesc (a b : Int) : List Int :=
  (List.range (a - b).toNat).map (fun k => a - k)

/-- `InputConfig._inner_get_messages` (`ModelConfig.py` lines 139-167):
negative values resolve by adding the filtered length; a single resolved
index in `[0, conv_len)` contributes that message, otherwise nothing; a
dict is injected verbatim; a pair iterates `range(start, end+1)` when
`start <= end`, else `range(start, end-1, -1)`, silently skipping resolved
positions outside `[0, conv_len)`. -/
def _inner_get_messages (messages : List Message) (item : IncludeItem) :
    List Message :=
  match item with
  | IncludeItem.idx i =>
    let conv_len : Int := messages.length
    let idx := if i < 0 then conv_len + i else i
    if 0 ≤ idx ∧ idx < conv_len then (messages.get? idx.toNat).toList
    else []
  | IncludeItem.literal m => [m]
  | IncludeItem.rangePair lo hi =>
    let conv_len : Int := messages.length
    let start_idx := if lo < 0 then conv_len + lo else lo
    let end_idx := if hi < 0 then conv_len + hi else hi
    if start_idx ≤ end_idx then
      (intRangeAsc start_idx (end_idx + 1)).filterMap
        (fun j => if 0 ≤ j ∧ j < conv_len then messages.get? j.toNat
          else none)
    else
      (intRangeDesc start_idx (end_idx - 1)).filterMap
        (fun j => if 0 ≤ j ∧ j < conv_len then messages.get? j.toNat
          else none)

/-- Resolution of a possibly negative endpoint over a sequence of length
`n`, following the spec: negative endpoints resolve to `N + value`. -/
def resolveEndpoint (n : Nat) (v : Int) : Int := if v < 0 then n + v else v

/-- The positions a `(start, end)` pair denotes over a sequence of length
`n`, following the spec: forward `start..end` when `start <= end`, else
backward, both ends inclusive. -/
def rangePositions (n : Nat) (lo hi : Int) : List Int :=
  if resolveEndpoint n lo ≤ resolveEndpoint n hi then
    intRangeAsc (resolveEndpoint n lo) (resolveEndpoint n hi + 1)
  else
    intRangeDesc (resolveEndpoint n lo) (resolveEndpoint n hi - 1)

/-- C9: a `(start, end)` range entry resolves negative endpoints as
`N + value`, yields the inclusive positions forward when
`start' <= end'` and backward otherwise, and every resolved position
outside `[0, N)` contributes no message (and nothing errors — the selector
is a total function); in particular `(2,0)` over a 5-element sequence
yields positions `[2,1,0]` and `(0,2)` yields `[0,1,2]`. -/
theorem range_selection_spec :
    (∀ (messages : List Message) (lo hi : Int),
      _inner_get_messages messages (IncludeItem.rangePair lo hi) =
        (rangePositions messages.length lo hi).filterMap
          (fun j => if 0 ≤ j ∧ j < (messages.length : Int)
            then messages.get? j.toNat else none)) ∧
    (∀ a b c d f : Message,
      _inner_get_messages [a, b, c, d, f] (IncludeItem.rangePair 2 0) =
        [c, b, a] ∧
      _inner_get_messages [a, b, c, d, f] (IncludeItem.rangePair 0 2) =
        [a, b, c]) := by
  constructor
  · intro messages lo hi
    rw [rangePositions, apply_ite (List.filterMap (fun j =>
      if 0 ≤ j ∧ j < (messages.length : Int) then messages.get? j.toNat
      else none))]
    rfl
  · intro a b c d f
    exact ⟨rfl, rfl⟩

/-- The `messages_to_include` field (`ModelConfig.py` line 12): `None`, a
single integer, a literal message dict, a 2-element pair, or a list of
items. -/
inductive MessagesToInclude where
  | noSelection
  | int (i : Int)
  | literal (m : Message)
  | rangePair (lo hi : Int)
  | list (items : List IncludeItem)
deriving Repr, DecidableEq

/-- Python truthiness of `self.messages_to_include` at the
`if not self.messages_to_include:` check (`ModelConfig.py` line 169):
`None`, the integer `0` and the empty list are falsy; a message dict is
nonempty in this model and a 2-element tuple is never empty, so both are
truthy. -/
def mtiFalsy : MessagesToInclude → Bool
  | MessagesToInclude.noSelection => true
  | MessagesToInclude.int i => i == 0
  | MessagesToInclude.literal _ => false
  | MessagesToInclude.rangePair _ _ => false
  | MessagesToInclude.list items => items.isEmpty

/-- The selection stage of `InputConfig.select` (`ModelConfig.py` lines
169-179) applied to the role- and tag-filtered sequence. -/
def selectStage (filtered : List Message) (mti : MessagesToInclude) :
    List Message :=
  if mtiFalsy mti then filtered
  else
    match mti with
    | MessagesToInclude.noSelection => filtered
    | MessagesToInclude.int i =>
      _inner_get_messages filtered (IncludeItem.idx i)
    | MessagesToInclude.literal m =>
      _inner_get_messages filtered (IncludeItem.literal m)
    | MessagesToInclude.rangePair lo hi =>
      _inner_get_messages filtered (IncludeItem.rangePair lo hi)
    | MessagesToInclude.list items =>
      (items.map (_inner_get_messages filtered)).flatten

/-- A single index contributes at most one message. -/
theorem inner_idx_len (messages : List Message) (i : Int) :
    (_inner_get_messages messages (IncludeItem.idx i)).length ≤ 1 := by
  have hopt : ∀ o : Option Message, o.toList.length ≤ 1 := by
    intro o
    cases o <;> simp
  simp only [_inner_get_messages]
  split <;> split <;> first | exact hopt _ | simp

/-- C10: selecting with the single integer index 0 returns the filtered
sequence unchanged — the `if not self.messages_to_include` emptiness check
treats the integer 0 as an absent selection — unlike every nonzero single
index, which selects by index and yields at most one message. -/
theorem select_int_zero_passthrough :
    (∀ filtered : List Message,
      selectStage filtered (MessagesToInclude.int 0) = filtered) ∧
    (∀ (filtered : List Message) (i : Int), i ≠ 0 →
      selectStage filtered (MessagesToInclude.int i) =
        _inner_get_messages filtered (IncludeItem.idx i) ∧
      (selectStage filtered (MessagesToInclude.int i)).length ≤ 1) := by
  constructor
  · intro filtered
    rfl
  · intro filtered i hi
    have hf : mtiFalsy (MessagesToInclude.int i) = false := by
      simp [mtiFalsy, hi]
    constructor
    · simp [selectStage, hf]
    · simp only [selectStage, hf, Bool.false_eq_true, if_false]
      exact inner_idx_len filtered i

/-- Sample messages used by concrete witnesses. -/
def mA : Message := ⟨"user", "hello", []⟩

/-- Second sample message used by concrete witnesses. -/
def mB : Message := ⟨"assistant", "The sky is blue.", ["model_out"]⟩

/-- Concrete witness for `select_int_zero_passthrough`: over `[mA, mB]`,
index 0 passes the whole sequence through while index 1 yields one
message. -/
theorem select_int_zero_passthrough_witness :
    selectStage [mA, mB] (MessagesToInclude.int 0) = [mA, mB] ∧
    (selectStage [mA, mB] (MessagesToInclude.int 1) =
      _inner_get_messages [mA, mB] (IncludeItem.idx 1) ∧
      (selectStage [mA, mB] (MessagesToInclude.int 1)).length ≤ 1) :=
  ⟨select_int_zero_passthrough.1 [mA, mB],
    select_int_zero_passthrough.2 [mA, mB] 1 (by decide)⟩

/-!  ## Written-requirement example budgeting
(`RequirementTypes.py` lines 193-249 and `helpers.py`)

The prompt renderer `construct_msgs` is embedded verbatim; the random
shuffle is quantified over by taking the post-shuffle example list as
input, and `estimate_tokens` is the grading provider's estimator, passed as
a function.  A present-but-empty `extra_system_msg`/`extra_context` string
is falsy in Python exactly like `None`, so both are modelled as `none`. -/

/-- `code_block_text` (`helpers.py` lines 35-37). -/
def code_block_text (text language : String) : String :=
  "```" ++ language ++ "\n" ++ text ++ "\n```"

/-- `indent_text` (`helpers.py` lines 39-41). -/
def indent_text (text indent : String) : String :=
  indent ++ String.intercalate ("\n" ++ indent) (text.splitOn "\n")

/-- `examples_to_str` (`RequirementTypes.py` lines 201-202). -/
def examples_to_str (examples : List String) (pfx : String) : String :=
  String.intercalate "\n\n"
    (examples.enum.map (fun p =>
      "## " ++ pfx ++ " Example " ++ toString (p.1 + 1) ++ "\n" ++
        code_block_text p.2 "txt"))

/-- `construct_msgs` (`RequirementTypes.py` lines 193-223), with the
captured `extra_system_msg` and `text_to_evaluate` passed explicitly.
Returns `(system_msg, user_msg)`. -/
def construct_msgs (extra_system_msg : Option String)
    (text_to_evaluate : String) (requirement : String)
    (positive_examples negative_examples : List String)
    (extra_context : Option String) : String × String :=
  let system_msg := "# Goal\n\nDetermine if the given text meets the following written requirement. Answer with only \x27yes\x27 or \x27no\x27."
  let system_msg := system_msg ++
    (match extra_system_msg with
      | some _ => " (Unless told to do more under \x27Additionally\x27.)"
      | none => "")
  let system_msg := system_msg ++ "\n\n> Note, for clarity: All requirement, example, and content text given to you are wrapped in markdown code blocks like this \x27```txt\\n\x7btext\x7d\\n```\x27."
  let system_msg := system_msg ++ "\n\n# Written Requirement:\n" ++
    code_block_text requirement "txt"
  let system_msg := system_msg ++
    (if negative_examples.isEmpty then "" else
      "\n\n# Examples that do *NOT* meet the requirement:\n" ++
        examples_to_str negative_examples "Bad")
  let system_msg := system_msg ++
    (if positive_examples.isEmpty then "" else
      "\n\n# Examples that *DO* meet the requirement:\n" ++
        examples_to_str positive_examples "Good")
  let system_msg := system_msg ++
    (match extra_system_msg with
      | some esm =>
        "\n\n# Additionally\nIn this case, the application would also like to tell you:\n" ++
          code_block_text esm "txt" ++
          "\nPlease follow any additional instructions that it may have given you there as well."
      | none => "")
  let user_msg :=
    (match extra_context with
      | some ec =>
        "# Extra Context\nThe text you are suppose to evaluate in this case comes from a conversation with another AI. For context, here is the conversation that it was responding to in xml that has been indented over for clarity:\n" ++
          code_block_text
            ("<Other_Conversation>\n" ++ indent_text ec "\t" ++
              "\n</Other_Conversation>") "xml" ++ "\n\n"
      | none => "")
  let user_msg := user_msg ++ "# Text to evaluate:\n" ++
    code_block_text text_to_evaluate "txt" ++
    "\n\n# Question\nDoes this \x27# Text to evaluate\x27 meet the \x27# Written Requirement\x27?"
  (system_msg, user_msg)

/-- Polarity tag of a pooled example (`("positive", ex)` /
`("negative", ex)`, `RequirementTypes.py` lines 186-191). -/
inductive Polarity where
  | positive
  | negative
deriving Repr, DecidableEq

/-- The estimate the budgeting loop checks: the estimator applied to
`system_msg + user_msg` (`RequirementTypes.py` line 240) for the prompt
rendered from the given accepted example lists. -/
def renderEstimate (est : String → Nat) (extra_system_msg : Option String)
    (text_to_evaluate selected_requirement : String)
    (extra_context : Option String)
    (positive_examples negative_examples : List String) : Nat :=
  est ((construct_msgs extra_system_msg text_to_evaluate
      selected_requirement positive_examples negative_examples
      extra_context).1 ++
    (construct_msgs extra_system_msg text_to_evaluate
      selected_requirement positive_examples negative_examples
      extra_context).2)

/-- The greedy budgeting loop (`RequirementTypes.py` lines 231-246) over
the post-shuffle pooled example list: tentatively add each example to its
polarity's accepted list, re-render the full prompt, accept the addition if
the estimate is `<= token_limit`, and stop at the first overflow. -/
def budgetExamples (est : String → Nat) (token_limit : Nat)
    (extra_system_msg : Option String)
    (text_to_evaluate selected_requirement : String)
    (extra_context : Option String) :
    List (Polarity × String) → List String → List String →
      List String × List String
  | [], pos, neg => (pos, neg)
  | (pol, ex) :: rest, pos, neg =>
    let temp_pos := pos ++
      (match pol with
        | Polarity.positive => [ex]
        | Polarity.negative => [])
    let temp_neg := neg ++
      (match pol with
        | Polarity.negative => [ex]
        | Polarity.positive => [])
    if renderEstimate est extra_system_msg text_to_evaluate
        selected_requirement extra_context temp_pos temp_neg ≤
        token_limit then
      budgetExamples est token_limit extra_system_msg text_to_evaluate
        selected_requirement extra_context rest temp_pos temp_neg
    else (pos, neg)

/-- The finally rendered grader prompt (`RequirementTypes.py` lines
248-260): `construct_msgs` on the accepted lists, system and user message
concatenated as the estimator sees them. -/
def renderedPrompt (est : String → Nat) (token_limit : Nat)
    (extra_system_msg : Option String)
    (text_to_evaluate selected_requirement : String)
    (extra_context : Option String)
    (shuffled : List (Polarity × String)) : String :=
  let accepted := budgetExamples est token_limit extra_system_msg
    text_to_evaluate selected_requirement extra_context shuffled [] []
  (construct_msgs extra_system_msg text_to_evaluate selected_requirement
      accepted.1 accepted.2 extra_context).1 ++
    (construct_msgs extra_system_msg text_to_evaluate selected_requirement
      accepted.1 accepted.2 extra_context).2

/-- The default `estimate_tokens` (`providers/__init__.py` line 61):
`int(len(text) / 4.3)`, taken as `len * 10 / 43` in exact arithmetic (the
Python float division can deviate by at most one near multiples of 4.3,
immaterial here: the facts proved only need that a several-hundred-character
prompt has a positive estimate). -/
def estimate_tokens (text : String) : Nat := text.length * 10 / 43

/-- Budget invariant of the greedy loop: if the accepted lists start out
within budget (whenever nonempty), they stay within budget. -/
theorem budgetExamples_invariant (est : String → Nat) (token_limit : Nat)
    (esm : Option String) (tte req : String) (ec : Option String) :
    ∀ (shuffled : List (Polarity × String)) (pos neg : List String),
    (pos ≠ [] ∨ neg ≠ [] →
      renderEstimate est esm tte req ec pos neg ≤ token_limit) →
    ((budgetExamples est token_limit esm tte req ec shuffled pos neg).1
        ≠ [] ∨
      (budgetExamples est token_limit esm tte req ec shuffled pos neg).2
        ≠ [] →
      renderEstimate est esm tte req ec
        (budgetExamples est token_limit esm tte req ec shuffled pos neg).1
        (budgetExamples est token_limit esm tte req ec shuffled pos neg).2
        ≤ token_limit) := by
  intro shuffled
  induction shuffled with
  | nil =>
    intro pos neg hinv
    simpa [budgetExamples] using hinv
  | cons pe rest ih =>
    intro pos neg hinv
    obtain ⟨pol, ex⟩ := pe
    cases pol with
    | positive =>
      simp only [budgetExamples]
      split
      · exact ih _ _ (fun _ => by assumption)
      · exact hinv
    | negative =>
      simp only [budgetExamples]
      split
      · exact ih _ _ (fun _ => by assumption)
      · exact hinv

/-- C6 (amended): for every estimator, token limit, requirement phrasing,
context and shuffle order, whenever the budgeting step accepts at least one
example, the finally rendered grader prompt's estimate does not exceed the
limit.  (When no example is accepted the rendered prompt is the unchecked
example-free base prompt, which can exceed the limit — see the
counterexample.) -/
theorem written_budget_respecting (est : String → Nat) (token_limit : Nat)
    (esm : Option String) (tte req : String) (ec : Option String)
    (shuffled : List (Polarity × String))
    (h : (budgetExamples est token_limit esm tte req ec shuffled [] []).1
        ≠ [] ∨
      (budgetExamples est token_limit esm tte req ec shuffled [] []).2
        ≠ []) :
    est (renderedPrompt est token_limit esm tte req ec shuffled) ≤
      token_limit :=
  budgetExamples_invariant est token_limit esm tte req ec shuffled [] []
    (fun hne => absurd hne (by simp)) h

set_option maxRecDepth 100000

/-- Concrete witness for `written_budget_respecting`: with the default
estimator and limit 1000, the single example is accepted and the rendered
prompt stays within budget. -/
theorem written_budget_respecting_witness :
    estimate_tokens (renderedPrompt estimate_tokens 1000 none "hi" "Be nice." none
      [(Polarity.positive, "Thank you!")]) ≤ 1000 :=
  written_budget_respecting estimate_tokens 1000 none "hi" "Be nice." none
    [(Polarity.positive, "Thank you!")] (by decide)

/-- C6 counterexample: with the default estimator, token limit 0, one
positive example and no extra context, the first tentative addition
overflows, nothing is accepted, and the finally rendered (example-free)
prompt's estimate still exceeds the limit 0. -/
theorem written_budget_counterexample :
    ¬ estimate_tokens (renderedPrompt estimate_tokens 0 none "hi"
      "Be nice." none [(Polarity.positive, "x")]) ≤ 0 := by decide
